import Mathlib

/-!
Shallow embedding of the risk-scoring logic of the AlpineHazard repository
(`src/frontend/src/App.js`, component `RiskAssessment`): the functions
`calculateOverallRisk` (lines 822-904), `updateRiskFactor` (906-914) and
`getRiskColor` (916-921).  JavaScript numbers are modelled as exact
rationals; `Math.round` is modelled as half-up rounding.
-/

namespace AlpineHazard

/-- The discrete risk tier assigned by the classifier. -/
inductive RiskLevel where
  | LOW
  | MODERATE
  | HIGH
  | EXTREME
deriving DecidableEq, Repr

/-- Severity order on tiers: LOW < MODERATE < HIGH < EXTREME. -/
def RiskLevel.severity : RiskLevel → Nat
  | .LOW => 0
  | .MODERATE => 1
  | .HIGH => 2
  | .EXTREME => 3

/-- The `weather` record of `riskFactors` (App.js lines 756-763). -/
structure WeatherFactor where
  temperature : ℚ
  windSpeed : ℚ
  visibility : ℚ
  forecast : String
  precipitation : String
  score : ℚ
deriving DecidableEq, Repr

/-- The `avalanche` record of `riskFactors` (App.js lines 764-770). -/
structure AvalancheFactor where
  level : ℚ
  trend : String
  newSnow : ℚ
  windLoading : String
  score : ℚ
deriving DecidableEq, Repr

/-- The `terrain` record of `riskFactors` (App.js lines 771-777). -/
structure TerrainFactor where
  elevation : ℚ
  slope : ℚ
  aspect : String
  difficulty : String
  score : ℚ
deriving DecidableEq, Repr

/-- The `group` record of `riskFactors` (App.js lines 778-784). -/
structure GroupFactor where
  experience : String
  groupSize : ℚ
  equipment : String
  fitness : String
  score : ℚ
deriving DecidableEq, Repr

/-- The full `riskFactors` state object (App.js lines 755-785). -/
structure RiskFactors where
  weather : WeatherFactor
  avalanche : AvalancheFactor
  terrain : TerrainFactor
  group : GroupFactor
deriving DecidableEq, Repr

/-- The `weights` constant inside `calculateOverallRisk` (App.js lines 823-828). -/
structure Weights where
  weather : ℚ
  avalanche : ℚ
  terrain : ℚ
  group : ℚ
deriving DecidableEq, Repr

def weights : Weights :=
  { weather := 0.3
    avalanche := 0.35
    terrain := 0.2
    group := 0.15 }

/-- The `weightedScore` computed at App.js lines 830-834. -/
def weightedScore (riskFactors : RiskFactors) : ℚ :=
  (riskFactors.weather.score * weights.weather) +
  (riskFactors.avalanche.score * weights.avalanche) +
  (riskFactors.terrain.score * weights.terrain) +
  (riskFactors.group.score * weights.group)

/-- The icon element attached to a recommendation (lucide-react component). -/
inductive RecIcon where
  | CheckCircle
  | AlertTriangle
  | XCircle
deriving DecidableEq, Repr

/-- The recommendation bundle built inside `calculateOverallRisk`. -/
structure Recommendation where
  action : String
  message : String
  details : List String
  icon : RecIcon
deriving DecidableEq, Repr

/-- The object passed to `setOverallRisk` (App.js lines 896-901). -/
structure OverallRisk where
  score : ℚ
  level : RiskLevel
  color : String
  percentage : ℤ
deriving DecidableEq, Repr

/-- JavaScript `Math.round`: round half toward positive infinity. -/
def mathRound (x : ℚ) : ℤ := ⌊x + 1/2⌋

/-- `calculateOverallRisk` (App.js lines 822-904): computes the weighted
score, walks the ascending `<=` chain to pick tier, color and
recommendation, and produces the `overallRisk` object (with its rounded
display percentage) together with the recommendation. -/
def calculateOverallRisk (riskFactors : RiskFactors) : OverallRisk × Recommendation :=
  let ws := weightedScore riskFactors
  let rlc : RiskLevel × String × Recommendation :=
    if ws ≤ 3 then
      (.LOW, "#10b981",
        { action := "GO"
          message := "Risk profile supports resilient activity execution"
          details :=
            [ "Weather conditions are stable and favorable"
            , "Avalanche risk is within acceptable parameters"
            , "Route complexity matches group capabilities"
            , "Proceed with standard resilience measures" ]
          icon := .CheckCircle })
    else if ws ≤ 5 then
      (.MODERATE, "#f59e0b",
        { action := "CAUTION"
          message := "Enhanced resilience measures required for safe execution"
          details :=
            [ "Implement continuous monitoring of changing conditions"
            , "Verify latest hazard bulletins and warnings"
            , "Deploy comprehensive risk mitigation equipment"
            , "Activate contingency planning and alternative routes" ]
          icon := .AlertTriangle })
    else if ws ≤ 7 then
      (.HIGH, "#f97316",
        { action := "RECONSIDER"
          message := "Risk exposure exceeds resilience capacity thresholds"
          details :=
            [ "Current hazard profile surpasses acceptable risk tolerance"
            , "Recommend postponement pending improved conditions"
            , "Professional risk management expertise required if proceeding"
            , "Deploy advanced emergency response infrastructure" ]
          icon := .AlertTriangle })
    else
      (.EXTREME, "#dc2626",
        { action := "CRITICAL RISK"
          message := "Hazard exposure incompatible with population safety"
          details :=
            [ "Multiple catastrophic risk vectors converging"
            , "Environmental conditions pose extreme societal threat"
            , "Restrict access to secured, controlled environments only"
            , "Await substantial hazard mitigation before reconsidering" ]
          icon := .XCircle })
  ({ score := ws
     level := rlc.1
     color := rlc.2.1
     percentage := mathRound ((ws / 10) * 100) },
   rlc.2.2)

/-- The component state touched by `calculateOverallRisk`: it reads
`riskFactors` and writes `overallRisk` and `recommendation` (both start as
empty objects, modelled with `Option`). -/
structure AppState where
  riskFactors : RiskFactors
  overallRisk : Option OverallRisk
  recommendation : Option Recommendation
deriving DecidableEq, Repr

/-- The effect of one call of `calculateOverallRisk` on the component
state: `setOverallRisk` and `setRecommendation` store the two results;
`riskFactors` is only read. -/
def calculateOverallRiskState (s : AppState) : AppState :=
  let r := calculateOverallRisk s.riskFactors
  { s with overallRisk := some r.1, recommendation := some r.2 }

/-- `getRiskColor` (App.js lines 916-921). -/
def getRiskColor (score : ℚ) : String :=
  if score ≤ 3 then "#10b981"
  else if score ≤ 5 then "#f59e0b"
  else if score ≤ 7 then "#f97316"
  else "#dc2626"

/-- A JavaScript field value: a number or a string. -/
inductive JSValue where
  | num (q : ℚ)
  | str (s : String)
deriving DecidableEq, Repr

/-- The `riskFactors` object viewed as the string-keyed dictionary that
`updateRiskFactor` manipulates: category name to field name to value. -/
def RiskFactorsMap : Type := String → String → JSValue

/-- `updateRiskFactor` (App.js lines 906-914): the new state spreads the
old one, replacing the named category's record by a spread of that record
with the named field set to `value`. -/
def updateRiskFactor (category : String) (field : String) (value : JSValue)
    (prev : RiskFactorsMap) : RiskFactorsMap :=
  fun c f =>
    if c = category then
      (if f = field then value else prev c f)
    else prev c f

/-- Spec-side table (for the refinement claims): the fixed color per tier,
as the spec states it. -/
def specTierColor : RiskLevel → String
  | .LOW => "#10b981"
  | .MODERATE => "#f59e0b"
  | .HIGH => "#f97316"
  | .EXTREME => "#dc2626"

/-- Spec-side table (for the refinement claims): the fixed recommendation
bundle per tier, as the spec states it. -/
def specTierRecommendation : RiskLevel → Recommendation
  | .LOW =>
      { action := "GO"
        message := "Risk profile supports resilient activity execution"
        details :=
          [ "Weather conditions are stable and favorable"
          , "Avalanche risk is within acceptable parameters"
          , "Route complexity matches group capabilities"
          , "Proceed with standard resilience measures" ]
        icon := .CheckCircle }
  | .MODERATE =>
      { action := "CAUTION"
        message := "Enhanced resilience measures required for safe execution"
        details :=
          [ "Implement continuous monitoring of changing conditions"
          , "Verify latest hazard bulletins and warnings"
          , "Deploy comprehensive risk mitigation equipment"
          , "Activate contingency planning and alternative routes" ]
        icon := .AlertTriangle }
  | .HIGH =>
      { action := "RECONSIDER"
        message := "Risk exposure exceeds resilience capacity thresholds"
        details :=
          [ "Current hazard profile surpasses acceptable risk tolerance"
          , "Recommend postponement pending improved conditions"
          , "Professional risk management expertise required if proceeding"
          , "Deploy advanced emergency response infrastructure" ]
        icon := .AlertTriangle }
  | .EXTREME =>
      { action := "CRITICAL RISK"
        message := "Hazard exposure incompatible with population safety"
        details :=
          [ "Multiple catastrophic risk vectors converging"
          , "Environmental conditions pose extreme societal threat"
          , "Restrict access to secured, controlled environments only"
          , "Await substantial hazard mitigation before reconsidering" ]
        icon := .XCircle }

/-- A `riskFactors` record with the demo default display fields of
App.js lines 755-785 and the four sub-scores replaced by `w a t g`. -/
def mkRiskFactors (w a t g : ℚ) : RiskFactors :=
  { weather :=
      { temperature := -5, windSpeed := 35, visibility := 150
        forecast := "deteriorating", precipitation := "snow", score := w }
    avalanche :=
      { level := 3, trend := "increasing", newSnow := 25
        windLoading := "moderate", score := a }
    terrain :=
      { elevation := 2800, slope := 38, aspect := "north"
        difficulty := "intermediate", score := t }
    group :=
      { experience := "intermediate", groupSize := 3, equipment := "complete"
        fitness := "good", score := g } }

/-! ## Helper lemmas -/

theorem score_eq (rf : RiskFactors) :
    (calculateOverallRisk rf).1.score = weightedScore rf := rfl

theorem percentage_eq (rf : RiskFactors) :
    (calculateOverallRisk rf).1.percentage = mathRound ((weightedScore rf / 10) * 100) := rfl

theorem level_eq (rf : RiskFactors) :
    (calculateOverallRisk rf).1.level =
      (if weightedScore rf ≤ 3 then RiskLevel.LOW
       else if weightedScore rf ≤ 5 then RiskLevel.MODERATE
       else if weightedScore rf ≤ 7 then RiskLevel.HIGH
       else RiskLevel.EXTREME) := by
  simp only [calculateOverallRisk]
  split_ifs <;> rfl

theorem color_eq (rf : RiskFactors) :
    (calculateOverallRisk rf).1.color = specTierColor (calculateOverallRisk rf).1.level := by
  simp only [calculateOverallRisk]
  split_ifs <;> rfl

theorem rec_eq (rf : RiskFactors) :
    (calculateOverallRisk rf).2 = specTierRecommendation (calculateOverallRisk rf).1.level := by
  simp only [calculateOverallRisk]
  split_ifs <;> rfl

theorem color_getRiskColor_eq (rf : RiskFactors) :
    (calculateOverallRisk rf).1.color = getRiskColor (weightedScore rf) := by
  simp only [calculateOverallRisk, getRiskColor]
  split_ifs <;> rfl

theorem severity_chain_mono {s t : ℚ} (h : s ≤ t) :
    (if s ≤ 3 then RiskLevel.LOW
     else if s ≤ 5 then RiskLevel.MODERATE
     else if s ≤ 7 then RiskLevel.HIGH
     else RiskLevel.EXTREME).severity ≤
      (if t ≤ 3 then RiskLevel.LOW
       else if t ≤ 5 then RiskLevel.MODERATE
       else if t ≤ 7 then RiskLevel.HIGH
       else RiskLevel.EXTREME).severity := by
  split_ifs <;> first | decide | (exfalso; linarith)

theorem weightedScore_all_eq (c : ℚ) : weightedScore (mkRiskFactors c c c c) = c := by
  norm_num [weightedScore, mkRiskFactors, weights]
  ring

/-! ## Claim theorems -/

/-- C1: for every record of four numeric sub-scores, `calculateOverallRisk`
computes the overall score as exactly
`0.30*weather + 0.35*avalanche + 0.20*terrain + 0.15*group`. -/
theorem calculateOverallRisk_weighted_sum (rf : RiskFactors) :
    (calculateOverallRisk rf).1.score =
      0.30 * rf.weather.score + 0.35 * rf.avalanche.score +
        0.20 * rf.terrain.score + 0.15 * rf.group.score := by
  rw [score_eq]
  simp only [weightedScore, weights]
  ring

/-- C2: the tier is assigned by the ascending conditional chain with
inclusive boundaries and first match winning: the tier is LOW exactly on
scores up to 3, MODERATE exactly on (3,5], HIGH exactly on (5,7], EXTREME
exactly above 7; a score exactly equal to 3, 5 or 7 falls in the
lower-severity tier. -/
theorem calculateOverallRisk_tier_chain (rf : RiskFactors) :
    ((calculateOverallRisk rf).1.level = RiskLevel.LOW ↔ weightedScore rf ≤ 3) ∧
    ((calculateOverallRisk rf).1.level = RiskLevel.MODERATE ↔
      3 < weightedScore rf ∧ weightedScore rf ≤ 5) ∧
    ((calculateOverallRisk rf).1.level = RiskLevel.HIGH ↔
      5 < weightedScore rf ∧ weightedScore rf ≤ 7) ∧
    ((calculateOverallRisk rf).1.level = RiskLevel.EXTREME ↔ 7 < weightedScore rf) ∧
    (weightedScore rf = 3 → (calculateOverallRisk rf).1.level = RiskLevel.LOW) ∧
    (weightedScore rf = 5 → (calculateOverallRisk rf).1.level = RiskLevel.MODERATE) ∧
    (weightedScore rf = 7 → (calculateOverallRisk rf).1.level = RiskLevel.HIGH) := by
  rw [level_eq]
  split_ifs with h1 h2 h3 <;>
    refine ⟨?_, ?_, ?_, ?_, ?_, ?_, ?_⟩ <;>
    simp_all <;> intros <;> linarith

/-- C2 witness: the boundary score 5 (from all sub-scores equal to 5) is
assigned the MODERATE tier. -/
theorem calculateOverallRisk_tier_chain_witness :
    weightedScore (mkRiskFactors 5 5 5 5) = 5 ∧
      (calculateOverallRisk (mkRiskFactors 5 5 5 5)).1.level = RiskLevel.MODERATE := by
  have h5 : weightedScore (mkRiskFactors 5 5 5 5) = 5 := by
    norm_num [weightedScore, mkRiskFactors, weights]
  exact ⟨h5, (calculateOverallRisk_tier_chain (mkRiskFactors 5 5 5 5)).2.2.2.2.2.1 h5⟩

/-- C3: for any fixed values of three sub-scores, increasing the remaining
single sub-score never decreases the weighted score and never lowers the
tier severity (LOW < MODERATE < HIGH < EXTREME). -/
theorem calculateOverallRisk_monotone (rf : RiskFactors) (x : ℚ) :
    (rf.weather.score ≤ x →
      (calculateOverallRisk rf).1.score ≤
          (calculateOverallRisk { rf with weather := { rf.weather with score := x } }).1.score ∧
        (calculateOverallRisk rf).1.level.severity ≤
          (calculateOverallRisk
              { rf with weather := { rf.weather with score := x } }).1.level.severity) ∧
    (rf.avalanche.score ≤ x →
      (calculateOverallRisk rf).1.score ≤
          (calculateOverallRisk { rf with avalanche := { rf.avalanche with score := x } }).1.score ∧
        (calculateOverallRisk rf).1.level.severity ≤
          (calculateOverallRisk
              { rf with avalanche := { rf.avalanche with score := x } }).1.level.severity) ∧
    (rf.terrain.score ≤ x →
      (calculateOverallRisk rf).1.score ≤
          (calculateOverallRisk { rf with terrain := { rf.terrain with score := x } }).1.score ∧
        (calculateOverallRisk rf).1.level.severity ≤
          (calculateOverallRisk
              { rf with terrain := { rf.terrain with score := x } }).1.level.severity) ∧
    (rf.group.score ≤ x →
      (calculateOverallRisk rf).1.score ≤
          (calculateOverallRisk { rf with group := { rf.group with score := x } }).1.score ∧
        (calculateOverallRisk rf).1.level.severity ≤
          (calculateOverallRisk
              { rf with group := { rf.group with score := x } }).1.level.severity) := by
  refine ⟨fun h => ?_, fun h => ?_, fun h => ?_, fun h => ?_⟩ <;>
    [skip; skip; skip; skip] <;>
    (refine ⟨?_, ?_⟩ <;>
      [ (rw [score_eq, score_eq]; simp only [weightedScore, weights]; linarith)
      ; (rw [level_eq, level_eq]
         refine severity_chain_mono ?_
         simp only [weightedScore, weights]; linarith) ])

/-- C3 witness: at the demo record with all sub-scores 2, raising the
weather sub-score to 9 does not decrease the score or the tier severity. -/
theorem calculateOverallRisk_monotone_witness :
    (mkRiskFactors 2 2 2 2).weather.score ≤ 9 ∧
      ((calculateOverallRisk (mkRiskFactors 2 2 2 2)).1.score ≤
          (calculateOverallRisk
            { mkRiskFactors 2 2 2 2 with
                weather := { (mkRiskFactors 2 2 2 2).weather with score := 9 } }).1.score ∧
        (calculateOverallRisk (mkRiskFactors 2 2 2 2)).1.level.severity ≤
          (calculateOverallRisk
            { mkRiskFactors 2 2 2 2 with
                weather := { (mkRiskFactors 2 2 2 2).weather with score := 9 } }).1.level.severity) := by
  have h : (mkRiskFactors 2 2 2 2).weather.score ≤ 9 := by norm_num [mkRiskFactors]
  exact ⟨h, (calculateOverallRisk_monotone (mkRiskFactors 2 2 2 2) 9).1 h⟩

/-- C4: whenever each of the four sub-scores lies in [0,10], the weighted
score computed by `calculateOverallRisk` lies in [0,10]. -/
theorem calculateOverallRisk_score_range (rf : RiskFactors)
    (hw0 : 0 ≤ rf.weather.score) (hw1 : rf.weather.score ≤ 10)
    (ha0 : 0 ≤ rf.avalanche.score) (ha1 : rf.avalanche.score ≤ 10)
    (ht0 : 0 ≤ rf.terrain.score) (ht1 : rf.terrain.score ≤ 10)
    (hg0 : 0 ≤ rf.group.score) (hg1 : rf.group.score ≤ 10) :
    0 ≤ (calculateOverallRisk rf).1.score ∧ (calculateOverallRisk rf).1.score ≤ 10 := by
  rw [score_eq]
  simp only [weightedScore, weights]
  constructor <;> nlinarith

/-- C4 witness: the demo sub-scores 6, 7, 5, 4 are each in [0,10] and
yield a score in [0,10]. -/
theorem calculateOverallRisk_score_range_witness :
    (0 ≤ (mkRiskFactors 6 7 5 4).weather.score ∧ (mkRiskFactors 6 7 5 4).weather.score ≤ 10) ∧
      (0 ≤ (calculateOverallRisk (mkRiskFactors 6 7 5 4)).1.score ∧
        (calculateOverallRisk (mkRiskFactors 6 7 5 4)).1.score ≤ 10) := by
  refine ⟨by norm_num [mkRiskFactors], ?_⟩
  exact calculateOverallRisk_score_range (mkRiskFactors 6 7 5 4)
    (by norm_num [mkRiskFactors]) (by norm_num [mkRiskFactors])
    (by norm_num [mkRiskFactors]) (by norm_num [mkRiskFactors])
    (by norm_num [mkRiskFactors]) (by norm_num [mkRiskFactors])
    (by norm_num [mkRiskFactors]) (by norm_num [mkRiskFactors])

/-- C5: the displayed percentage is the half-up rounding of
`score / 10 * 100`; all sub-scores 0 give score 0, tier LOW and
percentage 0, and all sub-scores 10 give score 10, tier EXTREME and
percentage 100. -/
theorem calculateOverallRisk_percentage (rf : RiskFactors) :
    (calculateOverallRisk rf).1.percentage = mathRound ((weightedScore rf / 10) * 100) ∧
    (calculateOverallRisk (mkRiskFactors 0 0 0 0)).1.score = 0 ∧
    (calculateOverallRisk (mkRiskFactors 0 0 0 0)).1.level = RiskLevel.LOW ∧
    (calculateOverallRisk (mkRiskFactors 0 0 0 0)).1.percentage = 0 ∧
    (calculateOverallRisk (mkRiskFactors 10 10 10 10)).1.score = 10 ∧
    (calculateOverallRisk (mkRiskFactors 10 10 10 10)).1.level = RiskLevel.EXTREME ∧
    (calculateOverallRisk (mkRiskFactors 10 10 10 10)).1.percentage = 100 := by
  refine ⟨percentage_eq rf, ?_, ?_, ?_, ?_, ?_, ?_⟩
  · rw [score_eq, weightedScore_all_eq]
  · rw [level_eq, weightedScore_all_eq]; norm_num
  · rw [percentage_eq, weightedScore_all_eq]; norm_num [mathRound]
  · rw [score_eq, weightedScore_all_eq]
  · rw [level_eq, weightedScore_all_eq]; norm_num
  · rw [percentage_eq, weightedScore_all_eq]; norm_num [mathRound]

/-- C6: `calculateOverallRisk` is deterministic in the four sub-score
records: two component states with equal `riskFactors` receive equal
`overallRisk` and `recommendation`, and the call leaves `riskFactors`
itself unchanged. -/
theorem calculateOverallRisk_deterministic (s t : AppState)
    (h : s.riskFactors = t.riskFactors) :
    (calculateOverallRiskState s).overallRisk = (calculateOverallRiskState t).overallRisk ∧
    (calculateOverallRiskState s).recommendation = (calculateOverallRiskState t).recommendation ∧
    (calculateOverallRiskState s).riskFactors = s.riskFactors := by
  simp [calculateOverallRiskState, h]

/-- C6 witness: two fresh component states with the demo factors. -/
theorem calculateOverallRisk_deterministic_witness :
    (AppState.mk (mkRiskFactors 6 7 5 4) none none).riskFactors =
        (AppState.mk (mkRiskFactors 6 7 5 4) none none).riskFactors ∧
      ((calculateOverallRiskState (AppState.mk (mkRiskFactors 6 7 5 4) none none)).overallRisk =
          (calculateOverallRiskState (AppState.mk (mkRiskFactors 6 7 5 4) none none)).overallRisk ∧
        (calculateOverallRiskState (AppState.mk (mkRiskFactors 6 7 5 4) none none)).recommendation =
          (calculateOverallRiskState (AppState.mk (mkRiskFactors 6 7 5 4) none none)).recommendation ∧
        (calculateOverallRiskState (AppState.mk (mkRiskFactors 6 7 5 4) none none)).riskFactors =
          (AppState.mk (mkRiskFactors 6 7 5 4) none none).riskFactors) :=
  ⟨rfl, calculateOverallRisk_deterministic
    (AppState.mk (mkRiskFactors 6 7 5 4) none none)
    (AppState.mk (mkRiskFactors 6 7 5 4) none none) rfl⟩

/-- C7: the color and recommendation returned by `calculateOverallRisk`
are functions of the tier alone, given by the fixed per-tier table
(LOW has color "#10b981" and action "GO", MODERATE "#f59e0b"/"CAUTION",
HIGH "#f97316"/"RECONSIDER", EXTREME "#dc2626"/"CRITICAL RISK"), with a
details list of exactly four strings in every case; the color also equals
`getRiskColor` applied to the same weighted score. -/
theorem calculateOverallRisk_fixed_per_tier (rf : RiskFactors) :
    (calculateOverallRisk rf).1.color = specTierColor (calculateOverallRisk rf).1.level ∧
    (calculateOverallRisk rf).2 = specTierRecommendation (calculateOverallRisk rf).1.level ∧
    ((calculateOverallRisk rf).2).details.length = 4 ∧
    (calculateOverallRisk rf).1.color = getRiskColor (weightedScore rf) ∧
    specTierColor RiskLevel.LOW = "#10b981" ∧
    (specTierRecommendation RiskLevel.LOW).action = "GO" ∧
    specTierColor RiskLevel.MODERATE = "#f59e0b" ∧
    (specTierRecommendation RiskLevel.MODERATE).action = "CAUTION" ∧
    specTierColor RiskLevel.HIGH = "#f97316" ∧
    (specTierRecommendation RiskLevel.HIGH).action = "RECONSIDER" ∧
    specTierColor RiskLevel.EXTREME = "#dc2626" ∧
    (specTierRecommendation RiskLevel.EXTREME).action = "CRITICAL RISK" := by
  refine ⟨color_eq rf, rec_eq rf, ?_, color_getRiskColor_eq rf,
    rfl, rfl, rfl, rfl, rfl, rfl, rfl, rfl⟩
  rw [rec_eq rf]
  cases (calculateOverallRisk rf).1.level <;> rfl

/-- C8: the four category weights are the fixed constants 0.3, 0.35, 0.2
and 0.15, each lies in [0,1], and in exact rational arithmetic they sum
to 1. -/
theorem weights_fixed_sum_one :
    weights.weather = 0.3 ∧ weights.avalanche = 0.35 ∧
    weights.terrain = 0.2 ∧ weights.group = 0.15 ∧
    (0 ≤ weights.weather ∧ weights.weather ≤ 1) ∧
    (0 ≤ weights.avalanche ∧ weights.avalanche ≤ 1) ∧
    (0 ≤ weights.terrain ∧ weights.terrain ≤ 1) ∧
    (0 ≤ weights.group ∧ weights.group ≤ 1) ∧
    weights.weather + weights.avalanche + weights.terrain + weights.group = 1 := by
  norm_num [weights]

/-- C9: on every rational input, in or out of [0,10], the result is
well-formed: the tier is one of the four levels with its matching color,
a negative weighted score falls into LOW, a weighted score above 10 falls
into EXTREME, and the stored score is the raw weighted score, never
clamped. -/
theorem calculateOverallRisk_total_on_any_input (rf : RiskFactors) :
    ((calculateOverallRisk rf).1.level = RiskLevel.LOW ∨
      (calculateOverallRisk rf).1.level = RiskLevel.MODERATE ∨
      (calculateOverallRisk rf).1.level = RiskLevel.HIGH ∨
      (calculateOverallRisk rf).1.level = RiskLevel.EXTREME) ∧
    (calculateOverallRisk rf).1.color = specTierColor (calculateOverallRisk rf).1.level ∧
    (weightedScore rf < 0 → (calculateOverallRisk rf).1.level = RiskLevel.LOW) ∧
    (10 < weightedScore rf → (calculateOverallRisk rf).1.level = RiskLevel.EXTREME) ∧
    (calculateOverallRisk rf).1.score = weightedScore rf := by
  refine ⟨?_, color_eq rf, ?_, ?_, score_eq rf⟩
  · cases h : (calculateOverallRisk rf).1.level
    · exact Or.inl rfl
    · exact Or.inr (Or.inl rfl)
    · exact Or.inr (Or.inr (Or.inl rfl))
    · exact Or.inr (Or.inr (Or.inr rfl))
  · intro h
    rw [level_eq]
    rw [if_pos (by linarith)]
  · intro h
    rw [level_eq]
    rw [if_neg (by linarith), if_neg (by linarith), if_neg (by linarith)]

/-- C9 witness: the out-of-range input with all sub-scores -5 yields a
negative weighted score and the LOW tier. -/
theorem calculateOverallRisk_total_on_any_input_witness :
    weightedScore (mkRiskFactors (-5) (-5) (-5) (-5)) < 0 ∧
      (calculateOverallRisk (mkRiskFactors (-5) (-5) (-5) (-5))).1.level = RiskLevel.LOW := by
  have h : weightedScore (mkRiskFactors (-5) (-5) (-5) (-5)) < 0 := by
    rw [weightedScore_all_eq]; norm_num
  exact ⟨h, (calculateOverallRisk_total_on_any_input
    (mkRiskFactors (-5) (-5) (-5) (-5))).2.2.1 h⟩

/-- C10: `updateRiskFactor category field value` sets exactly the named
field of the named category to `value` and leaves every other field of
that category, and every field of every other category, unchanged. -/
theorem updateRiskFactor_frame (category : String) (field : String) (value : JSValue)
    (prev : RiskFactorsMap) (c f : String) :
    (updateRiskFactor category field value prev category field = value) ∧
    (c = category → f ≠ field → updateRiskFactor category field value prev c f = prev c f) ∧
    (c ≠ category → updateRiskFactor category field value prev c f = prev c f) := by
  unfold updateRiskFactor
  refine ⟨by simp, fun h1 h2 => ?_, fun h1 => ?_⟩
  · simp [h1, h2]
  · simp [h1]

/-- C10 witness: updating weather.score to 8 leaves terrain.score of a
concrete dictionary unchanged. -/
theorem updateRiskFactor_frame_witness :
    ("terrain" : String) ≠ "weather" ∧
      updateRiskFactor "weather" "score" (JSValue.num 8)
          (fun _ _ => JSValue.num 0) "terrain" "score" =
        (fun (_ _ : String) => JSValue.num 0) "terrain" "score" := by
  refine ⟨by decide, ?_⟩
  exact (updateRiskFactor_frame "weather" "score" (JSValue.num 8)
    (fun _ _ => JSValue.num 0) "terrain" "score").2.2 (by decide)

end AlpineHazard
